import Mathlib

/-!
Verification of the jimeng image-generation controller
(`src/api/controllers/images.ts`).

The development shallowly embeds the pure decision logic of the controller:
aspect-ratio detection from the prompt, resolution-tier selection, the
fixed dimension tables, the ability-graph construction (with the uuid
generator, the random seed and the clock injected as parameters), the
polling state machine (with the network responses injected as an oracle
indexed by query number), and the credit-aware resolution-downgrade
wrapper `generateImagesWithRetry`.
-/

namespace Jimeng

/-! ### Character classes of the JavaScript regex used by the controller -/

/-- JavaScript regex class `\d`, that is `[0-9]`. -/
def isDigitCh (c : Char) : Bool :=
  '0' ≤ c && c ≤ '9'

/-- JavaScript regex class `\s` (ECMAScript WhiteSpace ∪ LineTerminator). -/
def isSpaceCh (c : Char) : Bool :=
  c == ' ' || c == '\t' || c == '\n' || c == (Char.ofNat 11) ||
  c == (Char.ofNat 12) || c == '\r' || c == (Char.ofNat 0xa0) ||
  c == (Char.ofNat 0x1680) ||
  ((Char.ofNat 0x2000) ≤ c && c ≤ (Char.ofNat 0x200a)) ||
  c == (Char.ofNat 0x2028) || c == (Char.ofNat 0x2029) ||
  c == (Char.ofNat 0x202f) || c == (Char.ofNat 0x205f) ||
  c == (Char.ofNat 0x3000) || c == (Char.ofNat 0xfeff)

/-- Substring test on character lists: does `pat` occur as a prefix of `s`?
Used to embed the JavaScript `String.prototype.includes` and the literal
alternative regexes such as the landscape/portrait keyword tests. -/
def isPrefixCL : List Char → List Char → Bool
  | [], _ => true
  | _ :: _, [] => false
  | a :: as, b :: bs => a == b && isPrefixCL as bs

/-- Substring containment on character lists (`s.includes(pat)` in JS). -/
def containsSub (pat : List Char) : List Char → Bool
  | [] => isPrefixCL pat []
  | c :: rest => isPrefixCL pat (c :: rest) || containsSub pat rest

/-- `String.prototype.includes` of the source, on Lean strings. -/
def jsIncludes (s pat : String) : Bool :=
  containsSub pat.data s.data

/-! ### The ratio regex `(\d+)\s*[:：]\s*(\d+)` of `detectAspectRatioKey` -/

/-- Try to match the regex `(\d+)\s*[:：]\s*(\d+)` starting exactly at the
head of `s`.  Returns the two digit groups and the remaining suffix after
the match.  Greediness of `\d+` and `\s*` is maximal-munch, which agrees
with the backtracking regex because the digit, whitespace and colon
character classes are pairwise disjoint. -/
def matchRatioAt (s : List Char) : Option (List Char × List Char × List Char) :=
  match s.takeWhile isDigitCh, (s.dropWhile isDigitCh).dropWhile isSpaceCh with
  | [], _ => none
  | _ :: _, [] => none
  | d1h :: d1t, c :: r3 =>
    if c == ':' || c == '：' then
      match (r3.dropWhile isSpaceCh).takeWhile isDigitCh,
            (r3.dropWhile isSpaceCh).dropWhile isDigitCh with
      | [], _ => none
      | d2h :: d2t, r5 => some (d1h :: d1t, d2h :: d2t, r5)
    else none

/-- The scan of the global regex, structurally recursive on a fuel that
bounds the number of engine steps: the scan either consumes a whole match
and resumes after it, or advances one character, exactly as the JS regex
engine with the `g` flag.  `ratioMatchesAux_congr` shows any fuel at least
the length of the input gives the same result, so the fuel is only a
termination device, not part of the semantics. -/
def ratioMatchesAux : Nat → List Char → List (List Char × List Char)
  | 0, _ => []
  | _ + 1, [] => []
  | fuel + 1, c :: cs =>
    match matchRatioAt (c :: cs) with
    | some (d1, d2, after) => (d1, d2) :: ratioMatchesAux fuel after
    | none => ratioMatchesAux fuel cs

/-- All matches of `(\d+)\s*[:：]\s*(\d+)` over the prompt, in order. -/
def ratioMatches (s : List Char) : List (List Char × List Char) :=
  ratioMatchesAux s.length s

/-! ### Aspect-ratio constants and detection (`images.ts` lines 25–105) -/

/-- The 8 supported aspect codes (`ASPECT_RATIOS` in the source). -/
def ASPECT_RATIOS : List String :=
  ["21:9", "16:9", "3:2", "4:3", "1:1", "3:4", "2:3", "9:16"]

/-- `RATIO_VALUES`: aspect code to provider `image_ratio` value. -/
def RATIO_VALUES : List (String × Nat) :=
  [("21:9", 0), ("16:9", 1), ("3:2", 2), ("4:3", 3),
   ("1:1", 8), ("3:4", 4), ("2:3", 5), ("9:16", 6)]

def ratioValue (r : String) : Option Nat :=
  (RATIO_VALUES.find? (fun p => p.1 == r)).map (fun p => p.2)

/-- The key string `match[1] ++ ":" ++ match[2]` built from a regex match. -/
def ratioKeyOf (d1 d2 : List Char) : String :=
  String.mk (d1 ++ ':' :: d2)

/-- Keyword alternative regex test such as `/横屏|横版|宽屏/.test(prompt)`:
containment of any literal alternative. -/
def containsAnyKw (s : String) (kws : List String) : Bool :=
  kws.any (fun k => containsSub k.data s.data)

/-- `detectAspectRatioKey` (lines 77–105): first numeric ratio match whose
key is a supported aspect code; otherwise Chinese layout keywords;
otherwise `none`. -/
def detectAspectRatioKey (prompt : String) : Option String :=
  match (ratioMatches prompt.data).find?
      (fun p => ASPECT_RATIOS.contains (ratioKeyOf p.1 p.2)) with
  | some p => some (ratioKeyOf p.1 p.2)
  | none =>
    if containsAnyKw prompt ["横屏", "横版", "宽屏"] then some "16:9"
    else if containsAnyKw prompt ["竖屏", "竖版", "手机"] then some "9:16"
    else if containsAnyKw prompt ["方形", "正方"] then some "1:1"
    else none

/-! ### Dimension tables (`DIMENSIONS_1K` / `DIMENSIONS_2K`, lines 49–70) -/

def DIMENSIONS_1K : List (String × Nat × Nat) :=
  [("21:9", 2016, 846), ("16:9", 1664, 936), ("3:2", 1584, 1056),
   ("4:3", 1472, 1104), ("1:1", 1328, 1328), ("3:4", 1104, 1472),
   ("2:3", 1056, 1584), ("9:16", 936, 1664)]

def DIMENSIONS_2K : List (String × Nat × Nat) :=
  [("21:9", 3024, 1296), ("16:9", 2560, 1440), ("3:2", 2496, 1664),
   ("4:3", 2304, 1728), ("1:1", 2048, 2048), ("3:4", 1728, 2304),
   ("2:3", 1664, 2496), ("9:16", 1440, 2560)]

def dimensionLookup (resolutionType ratio : String) : Option (Nat × Nat) :=
  ((if resolutionType == "2k" then DIMENSIONS_2K else DIMENSIONS_1K).find?
    (fun p => p.1 == ratio)).map (fun p => p.2)

/-! ### Resolution-tier and ratio selection (`generateImages`, lines 157–206) -/

/-- `is4xModel` (lines 158–162). -/
def is4xModel (modelName : String) : Bool :=
  jsIncludes modelName "image-4." ||
  modelName == "jimeng-image-4.5" ||
  modelName == "jimeng-image-4.1" ||
  modelName == "jimeng-image-4.0"

/-- `is2xModel` (line 163). -/
def is2xModel (modelName : String) : Bool :=
  modelName == "jimeng-image-2.0-pro"

/-- Lines 165–176: the 2.0-pro model forces tier `"1k"`; else a caller hint
in `{"1k","2k"}` is kept; else the tier defaults by model class. -/
def resolveResolutionType (modelName resolution : String) : String :=
  if is2xModel modelName then "1k"
  else if resolution == "1k" || resolution == "2k" then resolution
  else if is4xModel modelName then "2k" else "1k"

/-- The `resolution` parameter of `generateImages` carries the destructuring
default `"2k"`: an absent (undefined) argument becomes `"2k"` before tier
selection runs (line 116). -/
def resolveResolutionTypeOpt (modelName : String) (resolution : Option String) :
    String :=
  resolveResolutionType modelName (resolution.getD "2k")

/-- Lines 191–201: an invalid ratio hint falls back to `"1:1"`, and a
prompt-detected code overrides a (possibly defaulted) `"1:1"` hint. -/
def resolveRatio (prompt ratio : String) : String :=
  let detected := detectAspectRatioKey prompt
  let validRatio := if (ratioValue ratio).isSome then ratio else "1:1"
  match detected with
  | some d => if validRatio == "1:1" then d else validRatio
  | none => validRatio

/-- The geometry derived by `generateImages` before building the request:
resolution tier, resolved ratio code, provider `image_ratio` value and the
width/height pair from the per-tier dimension table (lines 157–206).
`none` models the JS crash that a ratio key absent from the tables would
cause; the tables cover all 8 codes, so the lookup in fact always hits. -/
structure Geometry where
  resolutionType : String
  validRatio : String
  imageRatio : Nat
  width : Nat
  height : Nat
deriving DecidableEq

def resolveGeometry (modelName prompt ratio resolution : String) :
    Option Geometry :=
  let rt := resolveResolutionType modelName resolution
  let vr := resolveRatio prompt ratio
  match ratioValue vr, dimensionLookup rt vr with
  | some ir, some wh => some ⟨rt, vr, ir, wh.1, wh.2⟩
  | _, _ => none

/-! ### Error model

Modelled from the spec: the exception-constant table `EX` (imported from
`api/consts/exceptions.ts`, which is outside the embedded sources) supplies
one distinct structured code per taxonomy kind; the four kinds this
controller uses are below.  `APIException` carries such a code and a
message, as thrown by `new APIException(EX.X, msg)`. -/

inductive ErrCode where
  | apiRequestFailed
  | apiImageGenerationFailed
  | apiContentFiltered
  | apiImageGenerationInsufficientPoints
deriving DecidableEq

structure APIException where
  code : ErrCode
  message : String
deriving DecidableEq

/-- An arbitrary JavaScript error value as inspected by the retry wrapper:
a structured code when the error is an `APIException` (`error.code`), and
a message string (`error.message`, possibly empty). -/
structure JError where
  code : Option ErrCode
  message : String
deriving DecidableEq

def APIException.toJError (e : APIException) : JError :=
  ⟨some e.code, e.message⟩

/-- Line 407: thrown when submission returns no history id. -/
def noHistoryIdError : APIException :=
  ⟨ErrCode.apiImageGenerationFailed, "记录ID不存在"⟩

/-- Lines 536–537: thrown when a poll response lacks the job id entry. -/
def recordMissingError : APIException :=
  ⟨ErrCode.apiImageGenerationFailed, "记录不存在"⟩

/-- Lines 547–549: thrown when the retry budget is exhausted. -/
def timeoutError : APIException :=
  ⟨ErrCode.apiImageGenerationFailed, "图像生成超时"⟩

/-- Line 552: thrown on fail state with the content-policy fail code.
Modelled from the spec: the constant carries no extra message. -/
def contentFilteredError : APIException :=
  ⟨ErrCode.apiContentFiltered, ""⟩

/-- Line 553: thrown on fail state with any other fail code.
Modelled from the spec: the constant carries no extra message. -/
def generationFailedError : APIException :=
  ⟨ErrCode.apiImageGenerationFailed, ""⟩

/-- Lines 146–149: reference-image upload failure, wrapping the upload
error's message. -/
def referenceUploadError (msg : String) : APIException :=
  ⟨ErrCode.apiRequestFailed, "参考图上传失败: " ++ msg⟩

/-! ### The resilience wrapper `generateImagesWithRetry` (lines 566–626) -/

/-- Line 578: the ordered resolution downgrade list. -/
def resolutionLevels : List String := ["2k", "1k"]

/-- Lines 594–599: an error counts as insufficient-credits when its
structured code is the insufficient-points code, or its (non-empty)
message contains one of the three balance markers. -/
def isInsufficientCredits (e : JError) : Bool :=
  e.code == some ErrCode.apiImageGenerationInsufficientPoints ||
  (!(e.message == "") &&
    (containsSub "积分不足".data e.message.data ||
     containsSub "2039".data e.message.data ||
     containsSub "1006".data e.message.data))

/-- Lines 613–618: the final error after the lowest tier still lacks
credits, carrying the user-facing remediation text. -/
def insufficientCreditsFinalJError : JError :=
  ⟨some ErrCode.apiImageGenerationInsufficientPoints,
   "积分不足，已自动降至最低画质仍然不足，请前往即梦官网 https://jimeng.jianying.com 充值积分"⟩

/-- Line 625: the defensive fallthrough after the tier list is exhausted. -/
def pipelineFallthroughJError : JError :=
  ⟨some ErrCode.apiImageGenerationFailed, "图像生成失败"⟩

/-- JavaScript `x || d` on an optional string: `undefined` and `""` both
yield the default. -/
def jsOr (o : Option String) (d : String) : String :=
  match o with
  | none => d
  | some s => if s == "" then d else s

/-- JavaScript `Array.prototype.indexOf`, returning `-1` when absent. -/
def jsIndexOfAux (x : String) : List String → Int → Int
  | [], _ => -1
  | a :: as, i => if a == x then i else jsIndexOfAux x as (i + 1)

def jsIndexOf (l : List String) (x : String) : Int :=
  jsIndexOfAux x l 0

/-- Lines 579–582: `Math.max(0, resolutionLevels.indexOf(options.resolution
|| "2k"))` — the index of the starting tier. -/
def startIndex (resolution : Option String) : Nat :=
  (max 0 (jsIndexOf resolutionLevels (jsOr resolution "2k"))).toNat

/-- The starting tier itself. -/
def startTier (resolution : Option String) : String :=
  resolutionLevels.getD (startIndex resolution) ""

/-- The `while (currentResIndex < resolutionLevels.length)` loop of lines
584–623, viewed on the suffix of `resolutionLevels` from the current index:
`tier :: rest` is the current tier and the remaining lower tiers, and
`rest ≠ []` is exactly `currentResIndex < resolutionLevels.length - 1`.
The inner pipeline (`generateImages`) is abstracted as the function
`inner` from the tier it is invoked at to its outcome. -/
def retryOver {α : Type} (inner : String → Except JError α) :
    List String → Except JError α
  | [] => Except.error pipelineFallthroughJError
  | tier :: rest =>
    match inner tier with
    | Except.ok v => Except.ok v
    | Except.error e =>
      if isInsufficientCredits e then
        match rest with
        | [] => Except.error insufficientCreditsFinalJError
        | _ :: _ => retryOver inner rest
      else Except.error e

/-- `generateImagesWithRetry`: run the downgrade loop from the starting
tier determined by the caller's resolution option. -/
def generateImagesWithRetry {α : Type} (inner : String → Except JError α)
    (resolution : Option String) : Except JError α :=
  retryOver inner (resolutionLevels.drop (startIndex resolution))

/-- The ordered list of tiers at which the inner pipeline is invoked by
the downgrade loop (one entry per `generateImages` call). -/
def attemptsOver {α : Type} (inner : String → Except JError α) :
    List String → List String
  | [] => []
  | tier :: rest =>
    match inner tier with
    | Except.ok _ => [tier]
    | Except.error e =>
      if isInsufficientCredits e then
        match rest with
        | [] => [tier]
        | _ :: _ => tier :: attemptsOver inner rest
      else [tier]

/-- The tiers attempted by a full `generateImagesWithRetry` call. -/
def attemptedTiers {α : Type} (inner : String → Except JError α)
    (resolution : Option String) : List String :=
  attemptsOver inner (resolutionLevels.drop (startIndex resolution))

/-! ### The polling state machine (`generateImages`, lines 416–559) -/

/-- Line 416. -/
def PROCESSING_STATES : List Int := [20, 42, 45]

/-- Line 417. -/
def FAIL_STATE : Int := 30

/-- Line 423. -/
def MAX_POLL_RETRIES : Nat := 120

/-- One item of the provider's `item_list`, flattened to the two URL
chains the result mapping reads: `item?.image?.large_images?.[0]?.image_url`
and `item?.common_attr?.cover_url` (`none` when any link of the optional
chain is absent). -/
structure ResultItem where
  largeImageUrl : Option String
  coverUrl : Option String
deriving DecidableEq

/-- The provider's record for the job id inside one poll response:
`status`, `fail_code` and `item_list` (lines 538–540). -/
structure HistoryRecord where
  status : Int
  fail_code : Option String
  item_list : List ResultItem
deriving DecidableEq

/-- The mutable loop state of lines 419–422: `status`, `failCode`,
`item_list` and `retryCount`. -/
structure PollState where
  status : Int
  failCode : Option String
  itemList : List ResultItem
  retryCount : Nat
deriving DecidableEq

/-- Line 419–422: `status = 20`, `failCode` unset, `item_list = []`,
`retryCount = 0`. -/
def initPollState : PollState :=
  ⟨20, none, [], 0⟩

/-- The `while` condition of lines 425–429. -/
def loopCond (s : PollState) : Bool :=
  PROCESSING_STATES.contains s.status && s.itemList.isEmpty &&
    s.retryCount < MAX_POLL_RETRIES

/-- The state update of lines 531–540: increment `retryCount`, then copy
status, fail code and item list from the response record. -/
def advance (s : PollState) (r : HistoryRecord) : PollState :=
  ⟨r.status, r.fail_code, r.item_list, s.retryCount + 1⟩

/-- Does a poll response keep the loop going (a record is present, its
status is in the processing set, and its item list is empty)? -/
def keepsGoing : Option HistoryRecord → Bool
  | none => false
  | some r => PROCESSING_STATES.contains r.status && r.item_list.isEmpty

/-- The polling loop of lines 425–545.  The network is abstracted as the
oracle mapping the 0-based query number to the record the response holds
for the job id (`none` when the response lacks the entry, the hard error
of lines 536–537).  The fuel is the termination device: called with fuel
`MAX_POLL_RETRIES - retryCount` it runs the loop exactly; the loop
condition alone stops it whenever `retryCount < MAX_POLL_RETRIES`, so the
fuel-zero row only fires when the condition is false anyway. -/
def runPollAux (oracle : Nat → Option HistoryRecord) :
    Nat → PollState → Except APIException PollState
  | 0, s => Except.ok s
  | fuel + 1, s =>
    if loopCond s then
      match oracle s.retryCount with
      | none => Except.error recordMissingError
      | some r => runPollAux oracle fuel (advance s r)
    else Except.ok s

/-- The JS truthiness test on an optional string (`undefined` and `""`
are falsy). -/
def jsTruthy : Option String → Bool
  | none => false
  | some s => !(s == "")

/-- Lines 555–559: map each result item to its primary large-image URL,
else the cover-URL fallback, else `null`. -/
def mapResultItem (it : ResultItem) : Option String :=
  if jsTruthy it.largeImageUrl then it.largeImageUrl
  else if jsTruthy it.coverUrl then it.coverUrl
  else none

/-- Lines 547–559: the checks after the loop — timeout first, then the
fail state split on the content-policy fail code `"2038"`, then success
mapping. -/
def finishPoll (s : PollState) : Except APIException (List (Option String)) :=
  if s.retryCount ≥ MAX_POLL_RETRIES then Except.error timeoutError
  else if s.status == FAIL_STATE then
    if s.failCode == some "2038" then Except.error contentFilteredError
    else Except.error generationFailedError
  else Except.ok (s.itemList.map mapResultItem)

/-- The polling phase of `generateImages`: run the loop from the initial
state with the full retry budget, then classify the final state. -/
def generateImagesPoll (oracle : Nat → Option HistoryRecord) :
    Except APIException (List (Option String)) :=
  match runPollAux oracle MAX_POLL_RETRIES initPollState with
  | Except.error e => Except.error e
  | Except.ok s => finishPoll s

/-! ### The ability graph (`generateImages`, lines 219–320)

Synthetic node identifiers (`util.uuid()`) are injected as the supply
`ids`, indexed in the order the source draws them; the random seed and
the timestamp are likewise parameters. -/

structure LargeImageInfo where
  id : String
  height : Nat
  width : Nat
  resolution_type : String
deriving DecidableEq

/-- `core_param` of the generate shape (lines 297–313). -/
structure GenerateCoreParam where
  id : String
  model : String
  prompt : String
  negative_prompt : String
  seed : Nat
  sample_strength : ℚ
  image_ratio : Nat
  large_image_info : LargeImageInfo
deriving DecidableEq

/-- `core_param` of the blend shape (lines 233–247): no negative prompt
and no seed. -/
structure BlendCoreParam where
  id : String
  model : String
  prompt : String
  sample_strength : ℚ
  image_ratio : Nat
  large_image_info : LargeImageInfo
deriving DecidableEq

/-- One entry of the blend `image_list` (lines 255–267). -/
structure RefImageEntry where
  id : String
  source_from : String
  platform_type : Nat
  name : String
  image_uri : String
  width : Nat
  height : Nat
  format : String
  uri : String
deriving DecidableEq

/-- One entry of the blend `ability_list` (lines 248–270). -/
structure BlendAbilityEntry where
  id : String
  name : String
  image_uri_list : List String
  image_list : List RefImageEntry
  strength : ℚ
deriving DecidableEq

/-- The blend shape (lines 229–287). -/
structure BlendAbility where
  id : String
  core_param : BlendCoreParam
  ability_list : List BlendAbilityEntry
  history_option_id : String
  placeholder_ability_indexes : List Nat
  postedit_generate_type : Nat
deriving DecidableEq

/-- The generate shape (lines 294–318). -/
structure GenerateAbility where
  id : String
  core_param : GenerateCoreParam
  history_option_id : String
deriving DecidableEq

/-- The `abilities` object: exactly one of the two shapes (lines 224–320). -/
inductive Abilities where
  | blend (id : String) (b : BlendAbility)
  | generate (id : String) (g : GenerateAbility)
deriving DecidableEq

/-- The prompt placed in the shape's core parameters. -/
def Abilities.corePrompt : Abilities → String
  | .blend _ b => b.core_param.prompt
  | .generate _ g => g.core_param.prompt

/-- Lines 224–320: build the `abilities` object.  The branch condition is
`hasFilePath && uploadID` with JS truthiness on the upload URI. -/
def buildAbilities (ids : Nat → String) (hasFilePath : Bool)
    (uploadID : Option String) (model prompt negativePrompt : String)
    (seed : Nat) (sampleStrength : ℚ) (imageRatio : Nat)
    (finalWidth finalHeight : Nat) (resolutionType : String) : Abilities :=
  if hasFilePath && jsTruthy uploadID then
    Abilities.blend (ids 0)
      { id := ids 1
        core_param :=
          { id := ids 2
            model := model
            prompt := prompt ++ "##"
            sample_strength := sampleStrength
            image_ratio := imageRatio
            large_image_info :=
              { id := ids 3
                height := finalHeight
                width := finalWidth
                resolution_type := resolutionType } }
        ability_list :=
          [{ id := ids 4
             name := "byte_edit"
             image_uri_list := [uploadID.getD ""]
             image_list :=
               [{ id := ids 5
                  source_from := "upload"
                  platform_type := 1
                  name := ""
                  image_uri := uploadID.getD ""
                  width := 0
                  height := 0
                  format := ""
                  uri := uploadID.getD "" }]
             strength := 1 / 2 }]
        history_option_id := ids 6
        placeholder_ability_indexes := [0]
        postedit_generate_type := 0 }
  else
    Abilities.generate (ids 0)
      { id := ids 1
        core_param :=
          { id := ids 2
            model := model
            prompt := prompt
            negative_prompt := negativePrompt
            seed := seed
            sample_strength := sampleStrength
            image_ratio := imageRatio
            large_image_info :=
              { id := ids 3
                height := finalHeight
                width := finalWidth
                resolution_type := resolutionType } }
        history_option_id := ids 4 }

/-! ### Helper lemmas about the regex scan -/

theorem dropWhile_len_le (p : Char → Bool) (l : List Char) :
    (l.dropWhile p).length ≤ l.length := by
  induction l with
  | nil => simp [List.dropWhile]
  | cons a as ih =>
    by_cases h : p a
    · simp [List.dropWhile, h]; omega
    · simp [List.dropWhile, h]

theorem matchRatioAt_len {s d1 d2 rest : List Char}
    (h : matchRatioAt s = some (d1, d2, rest)) : rest.length < s.length := by
  have hsplit : (s.takeWhile isDigitCh).length + (s.dropWhile isDigitCh).length
      = s.length := by
    have h0 := List.takeWhile_append_dropWhile isDigitCh s
    have h1 := congrArg List.length h0
    rw [List.length_append] at h1
    exact h1
  unfold matchRatioAt at h
  split at h
  · exact absurd h (by simp)
  · exact absurd h (by simp)
  · rename_i d1h d1t c r3 htake hr2
    split at h
    · split at h
      · exact absurd h (by simp)
      · rename_i d2h d2t hd2
        injection h with h1
        injection h1 with h1 h2
        injection h2 with h2 h3
        have e1 : (r3.dropWhile isSpaceCh).length ≤ r3.length :=
          dropWhile_len_le _ _
        have e2 : rest.length ≤ (r3.dropWhile isSpaceCh).length := by
          rw [← h3]; exact dropWhile_len_le _ _
        have e3 : (c :: r3).length ≤ (s.dropWhile isDigitCh).length := by
          rw [← hr2]; exact dropWhile_len_le _ _
        have e4 : 1 ≤ (s.takeWhile isDigitCh).length := by
          rw [htake]; simp
        simp only [List.length_cons] at e3
        omega
    · exact absurd h (by simp)

/-- The fuel of `ratioMatchesAux` is irrelevant above the input length:
the fueled scan agrees with the unfueled regex loop. -/
theorem ratioMatchesAux_congr : ∀ (fuel fuel' : Nat) (s : List Char),
    s.length ≤ fuel → s.length ≤ fuel' →
    ratioMatchesAux fuel s = ratioMatchesAux fuel' s := by
  intro fuel
  induction fuel with
  | zero =>
    intro fuel' s hs _
    have : s = [] := by
      cases s with
      | nil => rfl
      | cons c cs => simp at hs
    subst this
    cases fuel' <;> rfl
  | succ f ih =>
    intro fuel' s hs hs'
    cases s with
    | nil => cases fuel' <;> rfl
    | cons c cs =>
      cases fuel' with
      | zero => simp at hs'
      | succ f' =>
        cases hm : matchRatioAt (c :: cs) with
        | some p =>
          obtain ⟨d1, d2, after⟩ := p
          have hlen := matchRatioAt_len hm
          simp only [ratioMatchesAux, hm]
          simp only [List.length_cons] at hlen hs hs'
          exact congrArg _ (ih f' after (by omega) (by omega))
        | none =>
          simp only [ratioMatchesAux, hm]
          simp only [List.length_cons] at hs hs'
          exact ih f' cs (by omega) (by omega)

/-! ### Helper lemmas about the polling loop -/

theorem keepsGoing_elim {o : Option HistoryRecord} (h : keepsGoing o = true) :
    ∃ r, o = some r ∧ PROCESSING_STATES.contains r.status = true ∧
      r.item_list = [] := by
  cases o with
  | none => simp [keepsGoing] at h
  | some r =>
    simp only [keepsGoing, Bool.and_eq_true] at h
    refine ⟨r, rfl, h.1, ?_⟩
    cases hl : r.item_list with
    | nil => rfl
    | cons a as => rw [hl] at h; simp [List.isEmpty] at h

/-- Running the loop from the initial state under `k` keep-going responses
reaches the state after the `k`-th query with `k` budget consumed. -/
theorem runPoll_reach (oracle : Nat → Option HistoryRecord) :
    ∀ k : Nat, k ≤ MAX_POLL_RETRIES →
    (∀ j, j < k → keepsGoing (oracle j) = true) →
    ∃ s : PollState,
      runPollAux oracle MAX_POLL_RETRIES initPollState
        = runPollAux oracle (MAX_POLL_RETRIES - k) s ∧
      s.retryCount = k ∧
      PROCESSING_STATES.contains s.status = true ∧ s.itemList = [] := by
  intro k
  induction k with
  | zero =>
    intro _ _
    exact ⟨initPollState, rfl, rfl, by decide, rfl⟩
  | succ k ih =>
    intro hk hpre
    obtain ⟨s, heq, hrc, hst, hil⟩ := ih (by omega) (fun j hj => hpre j (by omega))
    obtain ⟨r, hor, hrst, hril⟩ := keepsGoing_elim (hpre k (by omega))
    have hcond : loopCond s = true := by
      have hproj : loopCond s = (PROCESSING_STATES.contains s.status &&
          s.itemList.isEmpty && decide (s.retryCount < MAX_POLL_RETRIES)) := rfl
      rw [hproj, hst, hil, hrc]
      have hd : decide (k < MAX_POLL_RETRIES) = true := by
        simp only [decide_eq_true_eq]
        omega
      rw [hd]
      rfl
    have hfuel : MAX_POLL_RETRIES - k = (MAX_POLL_RETRIES - (k + 1)) + 1 := by
      omega
    refine ⟨advance s r, ?_, by simp only [advance]; omega,
      by simp only [advance]; exact hrst, by simp only [advance]; exact hril⟩
    rw [heq, hfuel]
    simp only [runPollAux, hcond, if_true, hrc, hor]

/-- If the first `k` responses keep the loop going and the `k`-th query's
response carries a record that stops it (terminal status, non-empty item
list, or the budget being spent by this very query), the loop returns the
state copied from that record. -/
theorem runPoll_after_query (oracle : Nat → Option HistoryRecord)
    (k : Nat) (r : HistoryRecord)
    (hk : k + 1 ≤ MAX_POLL_RETRIES)
    (hpre : ∀ j, j < k → keepsGoing (oracle j) = true)
    (hr : oracle k = some r)
    (hterm : PROCESSING_STATES.contains r.status = false ∨ r.item_list ≠ [] ∨
      k + 1 = MAX_POLL_RETRIES) :
    runPollAux oracle MAX_POLL_RETRIES initPollState
      = Except.ok ⟨r.status, r.fail_code, r.item_list, k + 1⟩ := by
  obtain ⟨s, heq, hrc, hst, hil⟩ := runPoll_reach oracle k (by omega) hpre
  have hcond : loopCond s = true := by
    have hproj : loopCond s = (PROCESSING_STATES.contains s.status &&
        s.itemList.isEmpty && decide (s.retryCount < MAX_POLL_RETRIES)) := rfl
    rw [hproj, hst, hil, hrc]
    have hd : decide (k < MAX_POLL_RETRIES) = true := by
      simp only [decide_eq_true_eq]
      omega
    rw [hd]
    rfl
  have hfuel : MAX_POLL_RETRIES - k = (MAX_POLL_RETRIES - (k + 1)) + 1 := by
    omega
  rw [heq, hfuel]
  simp only [runPollAux, hcond, if_true, hrc, hr]
  have hadv : advance s r = ⟨r.status, r.fail_code, r.item_list, k + 1⟩ := by
    simp only [advance, hrc]
  rw [hadv]
  rcases Nat.lt_or_ge (k + 1) MAX_POLL_RETRIES with hlt | hge
  · have hfuel2 : MAX_POLL_RETRIES - (k + 1) = (MAX_POLL_RETRIES - (k + 2)) + 1 := by
      omega
    rw [hfuel2]
    have hcond2 : loopCond ⟨r.status, r.fail_code, r.item_list, k + 1⟩ = false := by
      have hproj : loopCond ⟨r.status, r.fail_code, r.item_list, k + 1⟩
          = (PROCESSING_STATES.contains r.status && r.item_list.isEmpty &&
             decide (k + 1 < MAX_POLL_RETRIES)) := rfl
      rw [hproj]
      rcases hterm with h1 | h1 | h1
      · rw [h1]
        rfl
      · have h2 : r.item_list.isEmpty = false := by
          cases hl : r.item_list with
          | nil => exact absurd hl h1
          | cons a as => rfl
        rw [h2]
        simp
      · have h3 : decide (k + 1 < MAX_POLL_RETRIES) = false := by
          simp only [decide_eq_false_iff_not]
          omega
        rw [h3]
        simp
    simp only [runPollAux, hcond2, Bool.false_eq_true, if_false]
  · have hfuel0 : MAX_POLL_RETRIES - (k + 1) = 0 := by omega
    rw [hfuel0]
    rfl

/-- If the first `k` responses keep the loop going and the `k`-th poll
response lacks the record entirely, the loop aborts with the
missing-record error. -/
theorem runPoll_missing (oracle : Nat → Option HistoryRecord) (k : Nat)
    (hk : k < MAX_POLL_RETRIES)
    (hpre : ∀ j, j < k → keepsGoing (oracle j) = true)
    (hmiss : oracle k = none) :
    runPollAux oracle MAX_POLL_RETRIES initPollState
      = Except.error recordMissingError := by
  obtain ⟨s, heq, hrc, hst, hil⟩ := runPoll_reach oracle k (by omega) hpre
  have hcond : loopCond s = true := by
    have hproj : loopCond s = (PROCESSING_STATES.contains s.status &&
        s.itemList.isEmpty && decide (s.retryCount < MAX_POLL_RETRIES)) := rfl
    rw [hproj, hst, hil, hrc]
    have hd : decide (k < MAX_POLL_RETRIES) = true := by
      simp only [decide_eq_true_eq]
      omega
    rw [hd]
    rfl
  have hfuel : MAX_POLL_RETRIES - k = (MAX_POLL_RETRIES - (k + 1)) + 1 := by
    omega
  rw [heq, hfuel]
  simp only [runPollAux, hcond, if_true, hrc, hmiss]

/-- The loop never leaves a successful state with more than the full
budget consumed (when started within the budget). -/
theorem runPollAux_retry_bound (oracle : Nat → Option HistoryRecord) :
    ∀ (fuel : Nat) (s s' : PollState),
    fuel + s.retryCount ≤ MAX_POLL_RETRIES →
    runPollAux oracle fuel s = Except.ok s' →
    s'.retryCount ≤ MAX_POLL_RETRIES := by
  intro fuel
  induction fuel with
  | zero =>
    intro s s' hb h
    injection h with h
    subst h
    omega
  | succ f ih =>
    intro s s' hb h
    simp only [runPollAux] at h
    by_cases hc : loopCond s = true
    · rw [if_pos hc] at h
      cases ho : oracle s.retryCount with
      | none => rw [ho] at h; exact absurd h (by simp)
      | some r =>
        rw [ho] at h
        exact ih (advance s r) s' (by simp [advance]; omega) h
    · rw [if_neg hc] at h
      injection h with h
      subst h
      omega

/-- A final state within the budget is never classified as a timeout. -/
theorem finishPoll_ne_timeout (s : PollState)
    (h : s.retryCount < MAX_POLL_RETRIES) :
    finishPoll s ≠ Except.error timeoutError := by
  unfold finishPoll
  rw [if_neg (by omega)]
  by_cases h30 : (s.status == FAIL_STATE) = true
  · rw [if_pos h30]
    by_cases hfc : (s.failCode == some "2038") = true
    · rw [if_pos hfc]
      intro hc
      injection hc with hc
      exact absurd hc (by decide)
    · rw [if_neg hfc]
      intro hc
      injection hc with hc
      exact absurd hc (by decide)
  · rw [if_neg h30]
    intro hc
    exact absurd hc (by simp)

/-! ### Helper lemmas about the downgrade wrapper -/

/-- The starting tier index is always 0 or 1. -/
theorem startIndex_cases (res : Option String) :
    startIndex res = 0 ∨ startIndex res = 1 := by
  cases res with
  | none => left; decide
  | some s =>
    by_cases h0 : s = ""
    · subst h0; left; decide
    · by_cases h1 : s = "2k"
      · subst h1; left; decide
      · by_cases h2 : s = "1k"
        · subst h2; right; decide
        · left
          have hjs : jsOr (some s) "2k" = s := by
            simp [jsOr, h0]
          have hidx : jsIndexOf resolutionLevels s = -1 := by
            simp [jsIndexOf, resolutionLevels, jsIndexOfAux, Ne.symm h1,
              Ne.symm h2]
          unfold startIndex
          rw [hjs, hidx]
          decide

/-! ### Claim theorems -/

/-- Claim C6: for each of the 8 supported aspect codes and each resolution
tier, the width/height pair resolved by `generateImages` equals the
corresponding entry of the fixed per-tier dimension table (16 fixed
integer pairs in total). -/
theorem generateImages_dimension_table :
    ((resolveGeometry "jimeng-image-4.5" "" "21:9" "1k").map
        (fun g => (g.width, g.height)) = some (2016, 846)) ∧
    ((resolveGeometry "jimeng-image-4.5" "" "16:9" "1k").map
        (fun g => (g.width, g.height)) = some (1664, 936)) ∧
    ((resolveGeometry "jimeng-image-4.5" "" "3:2" "1k").map
        (fun g => (g.width, g.height)) = some (1584, 1056)) ∧
    ((resolveGeometry "jimeng-image-4.5" "" "4:3" "1k").map
        (fun g => (g.width, g.height)) = some (1472, 1104)) ∧
    ((resolveGeometry "jimeng-image-4.5" "" "1:1" "1k").map
        (fun g => (g.width, g.height)) = some (1328, 1328)) ∧
    ((resolveGeometry "jimeng-image-4.5" "" "3:4" "1k").map
        (fun g => (g.width, g.height)) = some (1104, 1472)) ∧
    ((resolveGeometry "jimeng-image-4.5" "" "2:3" "1k").map
        (fun g => (g.width, g.height)) = some (1056, 1584)) ∧
    ((resolveGeometry "jimeng-image-4.5" "" "9:16" "1k").map
        (fun g => (g.width, g.height)) = some (936, 1664)) ∧
    ((resolveGeometry "jimeng-image-4.5" "" "21:9" "2k").map
        (fun g => (g.width, g.height)) = some (3024, 1296)) ∧
    ((resolveGeometry "jimeng-image-4.5" "" "16:9" "2k").map
        (fun g => (g.width, g.height)) = some (2560, 1440)) ∧
    ((resolveGeometry "jimeng-image-4.5" "" "3:2" "2k").map
        (fun g => (g.width, g.height)) = some (2496, 1664)) ∧
    ((resolveGeometry "jimeng-image-4.5" "" "4:3" "2k").map
        (fun g => (g.width, g.height)) = some (2304, 1728)) ∧
    ((resolveGeometry "jimeng-image-4.5" "" "1:1" "2k").map
        (fun g => (g.width, g.height)) = some (2048, 2048)) ∧
    ((resolveGeometry "jimeng-image-4.5" "" "3:4" "2k").map
        (fun g => (g.width, g.height)) = some (1728, 2304)) ∧
    ((resolveGeometry "jimeng-image-4.5" "" "2:3" "2k").map
        (fun g => (g.width, g.height)) = some (1664, 2496)) ∧
    ((resolveGeometry "jimeng-image-4.5" "" "9:16" "2k").map
        (fun g => (g.width, g.height)) = some (1440, 2560)) := by
  decide

/-- Claim C4 (counterexample): the claim asserts that an unspecified
resolution hint with a 3.x model yields tier "1k"; in the code the
`resolution` parameter's destructuring default is `"2k"`, which is a
valid tier and is kept, so an absent hint with `jimeng-image-3.0`
yields "2k", not "1k". -/
theorem resolveResolutionType_unspecified_counterexample :
    resolveResolutionTypeOpt "jimeng-image-3.0" none = "2k" ∧
    ¬ resolveResolutionTypeOpt "jimeng-image-3.0" none = "1k" := by
  decide

/-- Claim C4 (amended): tier selection is "1k" (forced) for the legacy
fixed-tier model; otherwise the caller's hint when the hint is "1k" or
"2k"; an absent hint takes the parameter default "2k" and therefore
yields "2k" for every non-legacy model; and only a supplied hint outside
{"1k","2k"} falls back to the model-class default ("2k" for 4.x classes,
"1k" for older ones). -/
theorem resolveResolutionType_selection (m : String) (res : Option String) :
    (is2xModel m = true → resolveResolutionTypeOpt m res = "1k") ∧
    (is2xModel m = false → res = some "1k" →
      resolveResolutionTypeOpt m res = "1k") ∧
    (is2xModel m = false → res = some "2k" →
      resolveResolutionTypeOpt m res = "2k") ∧
    (is2xModel m = false → res = none →
      resolveResolutionTypeOpt m res = "2k") ∧
    (∀ s : String, is2xModel m = false → res = some s → s ≠ "1k" → s ≠ "2k" →
      resolveResolutionTypeOpt m res =
        (if is4xModel m then "2k" else "1k")) := by
  refine ⟨?_, ?_, ?_, ?_, ?_⟩
  · intro h
    simp [resolveResolutionTypeOpt, resolveResolutionType, h]
  · intro h hres
    subst hres
    simp [resolveResolutionTypeOpt, resolveResolutionType, h]
  · intro h hres
    subst hres
    simp [resolveResolutionTypeOpt, resolveResolutionType, h]
  · intro h hres
    subst hres
    simp [resolveResolutionTypeOpt, resolveResolutionType, h]
  · intro s h hres hs1 hs2
    subst hres
    simp [resolveResolutionTypeOpt, resolveResolutionType, h, hs1, hs2]

/-- Witness for C4's amended theorem: a supplied hint "auto" (outside the
valid tier set) with the 3.x model resolves to the model-class default. -/
theorem resolveResolutionType_selection_witness :
    resolveResolutionTypeOpt "jimeng-image-3.0" (some "auto") =
      (if is4xModel "jimeng-image-3.0" then "2k" else "1k") :=
  (resolveResolutionType_selection "jimeng-image-3.0" (some "auto")).2.2.2.2
    "auto" (by decide) rfl (by decide) (by decide)

/-- Claim C5: ratio precedence — a valid caller hint other than "1:1"
wins over prompt detection; with no valid hint the first prompt-detected
aspect code wins, and with neither the ratio is "1:1"; a hint of exactly
"1:1" is overridden by a prompt-detected code.  The concrete conjuncts
instantiate the spec's example prompt. -/
theorem generateImages_ratio_precedence (prompt r : String) :
    ((ratioValue r).isSome = true → r ≠ "1:1" → resolveRatio prompt r = r) ∧
    ((ratioValue r).isSome = false →
      resolveRatio prompt r = (detectAspectRatioKey prompt).getD "1:1") ∧
    (∀ d : String, detectAspectRatioKey prompt = some d →
      resolveRatio prompt "1:1" = d) ∧
    (resolveRatio "a cat 16:9 wide" "4:3" = "4:3") ∧
    (resolveRatio "a cat 16:9 wide" "1:1" = "16:9") := by
  refine ⟨?_, ?_, ?_, by decide, by decide⟩
  · intro h hne
    cases hd : detectAspectRatioKey prompt with
    | none => simp [resolveRatio, hd, h]
    | some d => simp [resolveRatio, hd, h, hne]
  · intro h
    cases hd : detectAspectRatioKey prompt with
    | none => simp [resolveRatio, hd, h]
    | some d => simp [resolveRatio, hd, h]
  · intro d hd
    have hv : (ratioValue "1:1").isSome = true := by decide
    simp [resolveRatio, hd, hv]

/-- Witness for C5: the prompt-detected code overrides the (defaulted)
"1:1" hint on the spec's example prompt. -/
theorem generateImages_ratio_precedence_witness :
    resolveRatio "a cat 16:9 wide" "1:1" = "16:9" :=
  (generateImages_ratio_precedence "a cat 16:9 wide" "1:1").2.2.1
    "16:9" (by decide)

/-- Claim C1: starting at tier "2k", an insufficient-credits failure of
the inner pipeline re-runs the whole inner pipeline once at the next
tier "1k"; if "1k" succeeds the overall call returns its result with
exactly two inner invocations (at "2k" then "1k"); if "1k" also fails
with the insufficient-credits signature, the overall call fails with the
insufficient-points error carrying remediation text, again after exactly
two inner invocations, never more. -/
theorem generateImagesWithRetry_credit_downgrade {α : Type}
    (inner : String → Except JError α) (e2 : JError)
    (h2 : inner "2k" = Except.error e2)
    (hi2 : isInsufficientCredits e2 = true) :
    generateImagesWithRetry inner (some "2k") = retryOver inner ["1k"] ∧
    (∀ v : α, inner "1k" = Except.ok v →
      generateImagesWithRetry inner (some "2k") = Except.ok v ∧
      attemptedTiers inner (some "2k") = ["2k", "1k"]) ∧
    (∀ e1 : JError, inner "1k" = Except.error e1 →
      isInsufficientCredits e1 = true →
      generateImagesWithRetry inner (some "2k")
          = Except.error insufficientCreditsFinalJError ∧
      insufficientCreditsFinalJError.code
          = some ErrCode.apiImageGenerationInsufficientPoints ∧
      jsIncludes insufficientCreditsFinalJError.message "充值积分" = true ∧
      attemptedTiers inner (some "2k") = ["2k", "1k"]) := by
  have hdrop : resolutionLevels.drop (startIndex (some "2k")) = ["2k", "1k"] := by
    decide
  refine ⟨?_, ?_, ?_⟩
  · rw [generateImagesWithRetry, hdrop]
    simp only [retryOver, h2, hi2, if_true]
  · intro v hv
    constructor
    · rw [generateImagesWithRetry, hdrop]
      simp only [retryOver, h2, hi2, if_true, hv]
    · rw [attemptedTiers, hdrop]
      simp only [attemptsOver, h2, hi2, if_true, hv]
  · intro e1 h1 hi1
    refine ⟨?_, rfl, by decide, ?_⟩
    · rw [generateImagesWithRetry, hdrop]
      simp only [retryOver, h2, hi2, if_true, h1, hi1]
    · rw [attemptedTiers, hdrop]
      simp only [attemptsOver, h2, hi2, if_true, h1, hi1]

/-- Witness for C1: with both tiers failing on a structured
insufficient-points error, the wrapper ends with the final
insufficient-credits error after attempting exactly ["2k", "1k"]. -/
theorem generateImagesWithRetry_credit_downgrade_witness :
    generateImagesWithRetry
        (fun _ => (Except.error ⟨some ErrCode.apiImageGenerationInsufficientPoints, ""⟩ :
          Except JError (List String))) (some "2k")
      = Except.error insufficientCreditsFinalJError ∧
    attemptedTiers
        (fun _ => (Except.error ⟨some ErrCode.apiImageGenerationInsufficientPoints, ""⟩ :
          Except JError (List String))) (some "2k")
      = ["2k", "1k"] := by
  have h := (generateImagesWithRetry_credit_downgrade
    (fun _ => (Except.error ⟨some ErrCode.apiImageGenerationInsufficientPoints, ""⟩ :
      Except JError (List String)))
    ⟨some ErrCode.apiImageGenerationInsufficientPoints, ""⟩ rfl (by decide)).2.2
    ⟨some ErrCode.apiImageGenerationInsufficientPoints, ""⟩ rfl (by decide)
  exact ⟨h.1, h.2.2.2⟩

/-- Claim C8: any error of the inner pipeline that does not match the
insufficient-credits signature is re-thrown unmodified by the wrapper,
with no tier advancement (a single inner invocation, at the starting
tier); the fixed timeout, content-filter, missing-record and generic
generation-failure errors of the polling machine all fail the signature
test. -/
theorem generateImagesWithRetry_noncredit_passthrough {α : Type}
    (inner : String → Except JError α) (res : Option String) (e : JError)
    (herr : inner (startTier res) = Except.error e)
    (hni : isInsufficientCredits e = false) :
    generateImagesWithRetry inner res = Except.error e ∧
    attemptedTiers inner res = [startTier res] ∧
    isInsufficientCredits timeoutError.toJError = false ∧
    isInsufficientCredits contentFilteredError.toJError = false ∧
    isInsufficientCredits recordMissingError.toJError = false ∧
    isInsufficientCredits generationFailedError.toJError = false := by
  refine ⟨?_, ?_, by decide, by decide, by decide, by decide⟩
  · rcases startIndex_cases res with h | h
    · have htier : startTier res = "2k" := by rw [startTier, h]; rfl
      rw [htier] at herr
      rw [generateImagesWithRetry, h]
      show retryOver inner ["2k", "1k"] = Except.error e
      simp only [retryOver, herr, hni, Bool.false_eq_true, if_false]
    · have htier : startTier res = "1k" := by rw [startTier, h]; rfl
      rw [htier] at herr
      rw [generateImagesWithRetry, h]
      show retryOver inner ["1k"] = Except.error e
      simp only [retryOver, herr, hni, Bool.false_eq_true, if_false]
  · rcases startIndex_cases res with h | h
    · have htier : startTier res = "2k" := by rw [startTier, h]; rfl
      rw [htier] at herr
      rw [attemptedTiers, h, htier]
      show attemptsOver inner ["2k", "1k"] = ["2k"]
      simp only [attemptsOver, herr, hni, Bool.false_eq_true, if_false]
    · have htier : startTier res = "1k" := by rw [startTier, h]; rfl
      rw [htier] at herr
      rw [attemptedTiers, h, htier]
      show attemptsOver inner ["1k"] = ["1k"]
      simp only [attemptsOver, herr, hni, Bool.false_eq_true, if_false]

/-- Witness for C8: a content-filtered failure at the starting tier of an
unspecified resolution passes through verbatim with one attempt. -/
theorem generateImagesWithRetry_noncredit_passthrough_witness :
    generateImagesWithRetry
        (fun _ => (Except.error contentFilteredError.toJError :
          Except JError (List String))) none
      = Except.error contentFilteredError.toJError ∧
    attemptedTiers
        (fun _ => (Except.error contentFilteredError.toJError :
          Except JError (List String))) none
      = [startTier none] := by
  have h := generateImagesWithRetry_noncredit_passthrough
    (fun _ => (Except.error contentFilteredError.toJError :
      Except JError (List String))) none contentFilteredError.toJError
    rfl (by decide)
  exact ⟨h.1, h.2.1⟩

/-- A final state with the budget spent is classified as a timeout. -/
theorem finishPoll_timeout (s : PollState)
    (h : s.retryCount ≥ MAX_POLL_RETRIES) :
    finishPoll s = Except.error timeoutError := by
  unfold finishPoll
  rw [if_pos h]

/-- A final state within the budget in the fail state is classified by
its fail code. -/
theorem finishPoll_fail (s : PollState)
    (hrc : s.retryCount < MAX_POLL_RETRIES) (hst : s.status = FAIL_STATE) :
    finishPoll s = Except.error (if s.failCode == some "2038"
      then contentFilteredError else generationFailedError) := by
  unfold finishPoll
  rw [if_neg (by omega)]
  rw [if_pos (show (s.status == FAIL_STATE) = true by rw [hst]; decide)]
  by_cases hfc : (s.failCode == some "2038") = true
  · rw [if_pos hfc, if_pos hfc]
  · rw [if_neg hfc, if_neg hfc]

/-- Claim C2: for every status sequence, the polling loop performs at
most 120 iterations; it never reports the timeout error when some
response among the first 119 queries carries a terminal status; and it
fails with the timeout error whenever every response keeps the job in
the processing set with an empty result list. -/
theorem generateImages_polling_budget (oracle : Nat → Option HistoryRecord) :
    (∀ s : PollState,
      runPollAux oracle MAX_POLL_RETRIES initPollState = Except.ok s →
      s.retryCount ≤ MAX_POLL_RETRIES) ∧
    ((∃ k, k + 1 < MAX_POLL_RETRIES ∧ ∃ r, oracle k = some r ∧
        PROCESSING_STATES.contains r.status = false) →
      generateImagesPoll oracle ≠ Except.error timeoutError) ∧
    ((∀ k, keepsGoing (oracle k) = true) →
      generateImagesPoll oracle = Except.error timeoutError) := by
  refine ⟨?_, ?_, ?_⟩
  · intro s h
    exact runPollAux_retry_bound oracle MAX_POLL_RETRIES initPollState s
      (by show MAX_POLL_RETRIES + 0 ≤ MAX_POLL_RETRIES; omega) h
  · rintro ⟨k, hk, r, hor, hterm⟩ hcontra
    have hexP : ∃ j, keepsGoing (oracle j) = false := by
      refine ⟨k, ?_⟩
      rw [hor]
      simp only [keepsGoing, hterm, Bool.false_and]
    have hKspec : keepsGoing (oracle (Nat.find hexP)) = false :=
      Nat.find_spec hexP
    have hKle : Nat.find hexP ≤ k := by
      apply Nat.find_min' hexP
      rw [hor]
      simp only [keepsGoing, hterm, Bool.false_and]
    have hpre : ∀ j, j < Nat.find hexP → keepsGoing (oracle j) = true := by
      intro j hj
      have hne := Nat.find_min hexP hj
      cases hkg : keepsGoing (oracle j) with
      | false => exact absurd hkg hne
      | true => rfl
    cases ho : oracle (Nat.find hexP) with
    | none =>
      have h := runPoll_missing oracle (Nat.find hexP) (by omega) hpre ho
      simp only [generateImagesPoll, h] at hcontra
      injection hcontra with hc
      exact absurd hc (by decide)
    | some r' =>
      have hterm' : PROCESSING_STATES.contains r'.status = false ∨
          r'.item_list ≠ [] := by
        rw [ho] at hKspec
        cases hcb : PROCESSING_STATES.contains r'.status with
        | false => exact Or.inl rfl
        | true =>
          right
          intro hnil
          simp [keepsGoing, hnil] at hKspec
          simp at hcb
          exact absurd hcb hKspec
      have hfin := runPoll_after_query oracle (Nat.find hexP) r' (by omega)
        hpre ho (by
          rcases hterm' with h | h
          · exact Or.inl h
          · exact Or.inr (Or.inl h))
      have hne := finishPoll_ne_timeout
        ⟨r'.status, r'.fail_code, r'.item_list, Nat.find hexP + 1⟩
        (by show Nat.find hexP + 1 < MAX_POLL_RETRIES; omega)
      simp only [generateImagesPoll, hfin] at hcontra
      exact hne hcontra
  · intro hall
    obtain ⟨s, heq, hrc, _, _⟩ := runPoll_reach oracle MAX_POLL_RETRIES
      (Nat.le_refl _) (fun j _ => hall j)
    have h0 : MAX_POLL_RETRIES - MAX_POLL_RETRIES = 0 := by omega
    rw [h0] at heq
    have hok : runPollAux oracle MAX_POLL_RETRIES initPollState
        = Except.ok s := by
      rw [heq]
      rfl
    simp only [generateImagesPoll, hok]
    exact finishPoll_timeout s (by omega)

/-- Witness for C2: the everywhere-processing oracle produces the
timeout error. -/
theorem generateImages_polling_budget_witness :
    generateImagesPoll (fun _ => some ⟨20, none, []⟩)
      = Except.error timeoutError :=
  (generateImages_polling_budget (fun _ => some ⟨20, none, []⟩)).2.2
    (fun _ => by decide)

/-- Claim C3: when the polling run ends in the fail state 30 (within the
budget), the error is the content-filtered error exactly when the fail
code is "2038", and the generic generation-failure error for every other
fail code. -/
theorem generateImages_failcode_classification
    (oracle : Nat → Option HistoryRecord) (k : Nat) (r : HistoryRecord)
    (hk : k + 1 < MAX_POLL_RETRIES)
    (hpre : ∀ j, j < k → keepsGoing (oracle j) = true)
    (hr : oracle k = some r)
    (hst : r.status = FAIL_STATE) :
    generateImagesPoll oracle =
      Except.error (if r.fail_code == some "2038" then contentFilteredError
        else generationFailedError) := by
  have hterm : PROCESSING_STATES.contains r.status = false := by
    rw [hst]; decide
  have hfin := runPoll_after_query oracle k r (by omega) hpre hr (Or.inl hterm)
  simp only [generateImagesPoll, hfin]
  exact finishPoll_fail ⟨r.status, r.fail_code, r.item_list, k + 1⟩
    (by show k + 1 < MAX_POLL_RETRIES; omega)
    (by show r.status = FAIL_STATE; exact hst)

/-- Witness for C3: a first poll answering fail state 30 with fail code
"2038" yields the content-filtered error. -/
theorem generateImages_failcode_classification_witness :
    generateImagesPoll (fun _ => some ⟨30, some "2038", []⟩)
      = Except.error contentFilteredError :=
  generateImages_failcode_classification (fun _ => some ⟨30, some "2038", []⟩)
    0 ⟨30, some "2038", []⟩ (by decide) (fun j hj => absurd hj (by omega))
    rfl rfl

/-- Claim C7: when a poll response contains no entry for the job id at
all, the call fails immediately with the (generation-failed coded)
missing-record error, and the outcome is independent of every response
after that query — zero further poll queries matter. -/
theorem generateImages_missing_record (oracle : Nat → Option HistoryRecord)
    (k : Nat) (hk : k < MAX_POLL_RETRIES)
    (hpre : ∀ j, j < k → keepsGoing (oracle j) = true)
    (hmiss : oracle k = none) :
    generateImagesPoll oracle = Except.error recordMissingError ∧
    recordMissingError.code = ErrCode.apiImageGenerationFailed ∧
    (∀ g : Nat → Option HistoryRecord, (∀ j, j ≤ k → g j = oracle j) →
      generateImagesPoll g = Except.error recordMissingError) := by
  refine ⟨?_, rfl, ?_⟩
  · have h := runPoll_missing oracle k hk hpre hmiss
    simp only [generateImagesPoll, h]
  · intro g hg
    have hpre' : ∀ j, j < k → keepsGoing (g j) = true := by
      intro j hj
      rw [hg j (by omega)]
      exact hpre j hj
    have hmiss' : g k = none := by
      rw [hg k (Nat.le_refl k)]
      exact hmiss
    have h := runPoll_missing g k hk hpre' hmiss'
    simp only [generateImagesPoll, h]

/-- Witness for C7: a first response without the record aborts with the
missing-record error. -/
theorem generateImages_missing_record_witness :
    generateImagesPoll (fun _ => none) = Except.error recordMissingError :=
  (generateImages_missing_record (fun _ => none) 0 (by decide)
    (fun j hj => absurd hj (by omega)) rfl).1

/-- Claim C9: when the job first leaves the processing set (or first
presents a non-empty result list) exactly on the 120th poll query, the
run still fails with the timeout error: the budget check runs after the
loop regardless of the final status, and the success observed on the
120th query is discarded. -/
theorem generateImages_budget_check_after_loop
    (oracle : Nat → Option HistoryRecord)
    (h1 : ∀ k, k < 119 → keepsGoing (oracle k) = true)
    (h2 : ∃ r, oracle 119 = some r ∧
      (PROCESSING_STATES.contains r.status = false ∨ r.item_list ≠ [])) :
    generateImagesPoll oracle = Except.error timeoutError := by
  obtain ⟨r, hr, hterm⟩ := h2
  have hM : MAX_POLL_RETRIES = 120 := rfl
  have hfin := runPoll_after_query oracle 119 r (by omega) h1 hr (by
    rcases hterm with h | h
    · exact Or.inl h
    · exact Or.inr (Or.inl h))
  simp only [generateImagesPoll, hfin]
  exact finishPoll_timeout ⟨r.status, r.fail_code, r.item_list, 119 + 1⟩
    (by show 119 + 1 ≥ MAX_POLL_RETRIES; omega)

/-- Witness for C9: 119 processing responses followed by a success record
on the 120th query still end in the timeout error. -/
theorem generateImages_budget_check_after_loop_witness :
    generateImagesPoll
        (fun k => if k < 119 then some ⟨20, none, []⟩
          else some ⟨50, none, [⟨some "https://x/img1.png", none⟩]⟩)
      = Except.error timeoutError :=
  generateImages_budget_check_after_loop
    (fun k => if k < 119 then some ⟨20, none, []⟩
      else some ⟨50, none, [⟨some "https://x/img1.png", none⟩]⟩)
    (fun k hk => by
      show keepsGoing (if k < 119 then some (⟨20, none, []⟩ : HistoryRecord)
        else some ⟨50, none, [⟨some "https://x/img1.png", none⟩]⟩) = true
      rw [if_pos hk]
      decide)
    ⟨⟨50, none, [⟨some "https://x/img1.png", none⟩]⟩, by decide,
      Or.inl (by decide)⟩

/-- Claim C10: a blend-mode request (reference image supplied and
uploaded) submits the caller's prompt with the literal suffix "##"
appended in the ability graph's core parameters, while a generate-mode
request submits the caller's prompt verbatim. -/
theorem buildAbilities_prompt (ids : Nat → String) (u : String)
    (hu : ¬ u = "") (model prompt negativePrompt : String) (seed : Nat)
    (ss : ℚ) (imageRatio wpx hpx : Nat) (rt : String) :
    (buildAbilities ids true (some u) model prompt negativePrompt seed ss
        imageRatio wpx hpx rt).corePrompt = prompt ++ "##" ∧
    (buildAbilities ids false none model prompt negativePrompt seed ss
        imageRatio wpx hpx rt).corePrompt = prompt := by
  constructor
  · have ht : jsTruthy (some u) = true := by simp [jsTruthy, hu]
    simp [buildAbilities, ht, Abilities.corePrompt]
  · simp [buildAbilities, jsTruthy, Abilities.corePrompt]

/-- Witness for C10: concrete blend and generate builds. -/
theorem buildAbilities_prompt_witness :
    (buildAbilities (fun _ => "id") true (some "uri") "m" "p" "" 0 (1 / 2)
        8 1328 1328 "1k").corePrompt = "p" ++ "##" ∧
    (buildAbilities (fun _ => "id") false none "m" "p" "" 0 (1 / 2)
        8 1328 1328 "1k").corePrompt = "p" :=
  buildAbilities_prompt (fun _ => "id") "uri" (by decide) "m" "p" "" 0
    (1 / 2) 8 1328 1328 "1k"

end Jimeng
